import Mathlib

/-!
Shallow embedding of the WebSocket signaling relay in `src/server.js`
(rooms registry, per-connection registration state, message router,
disconnect cleanup), together with theorems checking the specification's
claims about it.

Modelling conventions:
* JavaScript values arriving from `JSON.parse` are modelled by `JValue`;
  the JS value `undefined` (a missing object property) is `JValue.undef`.
* A WebSocket is identified by a natural number; the ambient map
  `rs : Nat → Nat` gives each socket's `readyState` (1 = OPEN).
* `Map` objects are association lists with JavaScript `Map` semantics
  (insertion order preserved, `set` on an existing key updates in place).
* A JavaScript exception escaping a function is modelled by the `threw`
  flag on the handler output, together with the mutations performed
  before the throw.
-/

set_option autoImplicit false

namespace Signaling

/-- A JavaScript value as produced by `JSON.parse`, extended with `undef`
for the result of reading an absent property.  Arrays and objects are
encoded first-order: `arrCons`/`objCons` chains ended by
`arrNil`/`objNil`. -/
inductive JValue where
  | undef : JValue
  | null : JValue
  | bool (b : Bool) : JValue
  | num (n : Int) : JValue
  | str (s : String) : JValue
  | arrNil : JValue
  | arrCons (head tail : JValue) : JValue
  | objNil : JValue
  | objCons (key : String) (value rest : JValue) : JValue
deriving DecidableEq, Repr

/-- Build an object value from a field list. -/
def jobj (fields : List (String × JValue)) : JValue :=
  fields.foldr (fun p acc => .objCons p.1 p.2 acc) .objNil

/-- Property read `v.k` on a parsed JSON value: the first field of that
name of an object, `undef` on a non-object or a missing field.  (Reading
a property of `null` throws in JS; the handlers below test for `null`
explicitly before any read.) -/
def jget (v : JValue) (k : String) : JValue :=
  match v with
  | .objCons key value rest => if key = k then value else jget rest k
  | _ => JValue.undef

/-- ASCII upper-casing, one character at a time, as
`String.prototype.toUpperCase` acts on the room codes this relay sees. -/
def jsToUpper (s : String) : String :=
  ⟨s.data.map Char.toUpper⟩

/-- JavaScript truthiness of a `JValue` (arrays and objects are always
truthy). -/
def truthy : JValue → Bool
  | .undef => false
  | .null => false
  | .bool b => b
  | .num n => n ≠ 0
  | .str s => s ≠ ""
  | _ => true

section MapOps

variable {α β : Type} [DecidableEq α]

/-- `Map.get`: value at the first entry with the given key. -/
def mapGet : List (α × β) → α → Option β
  | [], _ => none
  | (k0, v0) :: rest, k => if k0 = k then some v0 else mapGet rest k

/-- `Map.set`: update the first entry with the given key in place, or
append a fresh entry at the end (JS `Map` insertion order). -/
def mapSet : List (α × β) → α → β → List (α × β)
  | [], k, v => [(k, v)]
  | (k0, v0) :: rest, k, v =>
    if k0 = k then (k0, v) :: rest else (k0, v0) :: mapSet rest k v

/-- `Map.delete`: remove the first entry with the given key. -/
def mapDelete : List (α × β) → α → List (α × β)
  | [], _ => []
  | (k0, v0) :: rest, k =>
    if k0 = k then rest else (k0, v0) :: mapDelete rest k

/-- `Map.has`. -/
def mapHas (m : List (α × β)) (k : α) : Bool :=
  (mapGet m k).isSome

/-- The keys of an association list are distinct (true of every real
JavaScript `Map`). -/
def keysNodup (m : List (α × β)) : Prop :=
  (m.map Prod.fst).Nodup

end MapOps

/-- An entry of a room's player map: `{ name, socket }`. -/
structure PlayerConn where
  name : JValue
  socket : Nat
deriving DecidableEq, Repr

/-- A room: optional streamer socket and name, plus the player map
(keyed by the name value supplied at registration). -/
structure Room where
  streamer : Option Nat
  streamerName : JValue
  players : List (JValue × PlayerConn)
deriving DecidableEq, Repr

/-- The fresh room made by `getRoom`: `{ players: new Map() }`. -/
def emptyRoom : Room :=
  { streamer := none, streamerName := .undef, players := [] }

/-- The global `rooms` map, keyed by the connection's `state.code` value. -/
abbrev Rooms := List (JValue × Room)

/-- Per-connection state bag `{ code?, name?, role? }`; unset fields are
`undef` as in JavaScript. -/
structure ConnState where
  role : JValue
  code : JValue
  name : JValue
deriving DecidableEq, Repr

/-- The state of a connection before any message: `{}`. -/
def initialState : ConnState :=
  { role := .undef, code := .undef, name := .undef }

/-- An outbound JSON message, one constructor per `JSON.stringify` shape
in `server.js`. -/
inductive OutMsg where
  | error (message : String)
  | registeredStreamer (players : List JValue)
  | registeredPlayer (streamerReady : Bool)
  | streamerReady
  | streamerDisconnected
  | playerJoined (name : JValue)
  | playerLeft (name : JValue)
  | offer (name : JValue) (offer : JValue)
  | answer (name : JValue) (answer : JValue)
  | candidate (name : JValue) (candidate : JValue)
  | scoreUpdate (playerName : JValue) (score : JValue) (timestamp : Nat)
deriving DecidableEq, Repr

/-- An observable socket effect: `socket.send(...)` or
`socket.close(code, reason)`. -/
inductive Event where
  | send (sock : Nat) (msg : OutMsg)
  | close (sock : Nat) (code : Nat) (reason : String)
deriving DecidableEq, Repr

/-- Result of running `handleMessage`: the connection state and rooms
registry after the call, the socket effects in order, and whether a JS
exception escaped the function (`threw`). -/
structure HMOut where
  state : ConnState
  rooms : Rooms
  events : List Event
  threw : Bool
deriving DecidableEq, Repr

/-- Result of the non-`register` part of `handleMessage` (which never
assigns to the connection state). -/
structure RelayOut where
  rooms : Rooms
  events : List Event
  threw : Bool
deriving DecidableEq, Repr

/-- `getRoom(code)`: return the existing room, or insert and return a
fresh empty one (get-or-create). -/
def getRoom (rooms : Rooms) (code : JValue) : Room × Rooms :=
  match mapGet rooms code with
  | some room => (room, rooms)
  | none => (emptyRoom, mapSet rooms code emptyRoom)

/-- The `role === 'player' && name` block of `cleanupConnection`:
delete the entry under `name` from the player map (if present) and
notify an open streamer with `player-left`. -/
def cleanupPlayerPart (rs : Nat → Nat) (role name : JValue) (room : Room) :
    Room × List Event :=
  if role = .str "player" ∧ truthy name = true then
    if mapHas room.players name = true then
      ({ room with players := mapDelete room.players name },
        match room.streamer with
        | some s =>
          if rs s = 1 then [Event.send s (.playerLeft name)] else []
        | none => [])
    else (room, [])
  else (room, [])

/-- The `role === 'streamer' && room.streamer === socket` block of
`cleanupConnection`: clear the streamer binding and notify every open
player with `streamer-disconnected`. -/
def cleanupStreamerPart (rs : Nat → Nat) (role : JValue) (sock : Nat)
    (room : Room) : Room × List Event :=
  if role = .str "streamer" ∧ room.streamer = some sock then
    ({ room with streamer := none, streamerName := .undef },
      room.players.filterMap fun p =>
        if rs p.2.socket = 1 then
          some (Event.send p.2.socket .streamerDisconnected)
        else none)
  else (room, [])

/-- The two sequential mutation blocks of `cleanupConnection` run on the
room object: the player block, then the streamer block. -/
def cleanupBoth (rs : Nat → Nat) (role name : JValue) (sock : Nat)
    (room : Room) : Room × List Event :=
  let pr := cleanupPlayerPart rs role name room
  let sr := cleanupStreamerPart rs role sock pr.1
  (sr.1, pr.2 ++ sr.2)

/-- `cleanupConnection(code, role, name, socket)`: remove the player
entry under `name` / clear the streamer binding, notify peers, and
delete the room if it ended up empty.  Returns the updated registry and
the sends performed. -/
def cleanupConnection (rs : Nat → Nat) (code role name : JValue)
    (sock : Nat) (rooms : Rooms) : Rooms × List Event :=
  if ¬ (truthy code && truthy role) = true then (rooms, [])
  else
    match mapGet rooms code with
    | none => (rooms, [])
    | some room =>
      let b := cleanupBoth rs role name sock room
      let rooms1 := mapSet rooms code b.1
      if b.1.streamer = none ∧ b.1.players = [] then
        (mapDelete rooms1 code, b.2)
      else (rooms1, b.2)

/-- The streamer branch of `register`, after the connection state has
been assigned and the room resolved via `getRoom`. -/
def registerStreamer (rs : Nat → Nat) (sock : Nat) (st1 : ConnState)
    (room : Room) (rooms1 : Rooms) : HMOut :=
  if room.streamer.isSome ∧ room.streamer ≠ some sock then
    { state := st1, rooms := rooms1,
      events :=
        [Event.send sock (.error "Streamer already connected for this lobby."),
         Event.close sock 1008 "Streamer already connected"],
      threw := false }
  else
    let room1 := { room with streamer := some sock, streamerName := st1.name }
    { state := st1, rooms := mapSet rooms1 st1.code room1,
      events :=
        Event.send sock (.registeredStreamer (room1.players.map Prod.fst)) ::
          room1.players.filterMap (fun p =>
            if rs p.2.socket = 1 then some (Event.send p.2.socket .streamerReady)
            else none),
      threw := false }

/-- The player branch of `register`. -/
def registerPlayer (rs : Nat → Nat) (sock : Nat) (st1 : ConnState)
    (room : Room) (rooms1 : Rooms) : HMOut :=
  let room1 :=
    { room with players := mapSet room.players st1.name ⟨st1.name, sock⟩ }
  { state := st1, rooms := mapSet rooms1 st1.code room1,
    events :=
      Event.send sock (.registeredPlayer room1.streamer.isSome) ::
        (match room1.streamer with
          | some s =>
            if rs s = 1 then
              [Event.send s (.playerJoined st1.name),
               Event.send sock .streamerReady]
            else []
          | none => []),
    threw := false }

/-- The `register` branch of `handleMessage`: ignore a duplicate, assign
`state.role`, `state.code = parsed.code.toUpperCase()` (a throw when
`parsed.code` is not a string, after `state.role` was already assigned),
`state.name`, then dispatch on the role. -/
def handleRegister (rs : Nat → Nat) (sock : Nat) (parsed : JValue)
    (st : ConnState) (rooms : Rooms) : HMOut :=
  if truthy st.role = true then
    { state := st, rooms := rooms, events := [], threw := false }
  else
    match jget parsed "code" with
    | .str c =>
      let st1 : ConnState :=
        { role := jget parsed "role", code := .str (jsToUpper c),
          name := jget parsed "name" }
      let rr := getRoom rooms st1.code
      if st1.role = .str "streamer" then registerStreamer rs sock st1 rr.1 rr.2
      else registerPlayer rs sock st1 rr.1 rr.2
    | _ =>
      { state := { st with role := jget parsed "role" }, rooms := rooms,
        events := [], threw := true }

/-- The `switch (parsed.type)` of `handleMessage`, for a registered
connection, after the room was resolved (and possibly created) by
`getRoom`. -/
def relaySwitch (rs : Nat → Nat) (now : Nat) (sock : Nat) (parsed : JValue)
    (st : ConnState) (room : Room) (rooms1 : Rooms) : RelayOut :=
  if jget parsed "type" = .str "offer" then
    if st.role = .str "player" then
      match room.streamer with
      | some s =>
        if rs s = 1 then
          { rooms := rooms1,
            events := [Event.send s (.offer st.name (jget parsed "offer"))],
            threw := false }
        else { rooms := rooms1, events := [], threw := false }
      | none => { rooms := rooms1, events := [], threw := false }
    else { rooms := rooms1, events := [], threw := false }
  else if jget parsed "type" = .str "answer" then
    if st.role = .str "streamer" then
      match mapGet room.players (jget parsed "name") with
      | some target =>
        if rs target.socket = 1 then
          { rooms := rooms1,
            events :=
              [Event.send target.socket
                (.answer (jget parsed "name") (jget parsed "answer"))],
            threw := false }
        else { rooms := rooms1, events := [], threw := false }
      | none => { rooms := rooms1, events := [], threw := false }
    else { rooms := rooms1, events := [], threw := false }
  else if jget parsed "type" = .str "candidate" then
    if st.role = .str "player" then
      match room.streamer with
      | some s =>
        if rs s = 1 then
          { rooms := rooms1,
            events :=
              [Event.send s (.candidate st.name (jget parsed "candidate"))],
            threw := false }
        else { rooms := rooms1, events := [], threw := false }
      | none => { rooms := rooms1, events := [], threw := false }
    else if st.role = .str "streamer" then
      match mapGet room.players (jget parsed "name") with
      | some target =>
        if rs target.socket = 1 then
          { rooms := rooms1,
            events :=
              [Event.send target.socket
                (.candidate (jget parsed "name") (jget parsed "candidate"))],
            threw := false }
        else { rooms := rooms1, events := [], threw := false }
      | none => { rooms := rooms1, events := [], threw := false }
    else { rooms := rooms1, events := [], threw := false }
  else if jget parsed "type" = .str "leave" then
    let cl := cleanupConnection rs st.code st.role st.name sock rooms1
    { rooms := cl.1, events := cl.2, threw := false }
  else if jget parsed "type" = .str "score-update" then
    if st.role = .str "player" then
      { rooms := rooms1,
        events :=
          (match room.streamer with
            | some s =>
              if rs s = 1 then
                [Event.send s
                  (.scoreUpdate st.name (jget parsed "score") now)]
              else []
            | none => []) ++
          room.players.filterMap (fun p =>
            if p.2.name ≠ st.name ∧ rs p.2.socket = 1 then
              some (Event.send p.2.socket
                (.scoreUpdate st.name (jget parsed "score") now))
            else none),
        threw := false }
    else { rooms := rooms1, events := [], threw := false }
  else { rooms := rooms1, events := [], threw := false }

/-- The non-`register` part of `handleMessage`: reject unregistered
connections with an error reply, otherwise resolve the room via
`getRoom` and run the relay switch. -/
def relayMessage (rs : Nat → Nat) (now : Nat) (sock : Nat) (parsed : JValue)
    (st : ConnState) (rooms : Rooms) : RelayOut :=
  if (truthy st.role && truthy st.code && truthy st.name) = true then
    let rr := getRoom rooms st.code
    relaySwitch rs now sock parsed st rr.1 rr.2
  else
    { rooms := rooms,
      events :=
        [Event.send sock (.error "Register before sending signaling messages.")],
      threw := false }

/-- `handleMessage(socket, raw, state)`.  `raw = none` models a frame
that is not valid JSON (reply `error`); `parsed = null` models the
`TypeError` thrown by reading `parsed.type` on `null`. -/
def handleMessage (rs : Nat → Nat) (now : Nat) (sock : Nat)
    (raw : Option JValue) (st : ConnState) (rooms : Rooms) : HMOut :=
  match raw with
  | none =>
    { state := st, rooms := rooms,
      events := [Event.send sock (.error "Invalid JSON payload")],
      threw := false }
  | some parsed =>
    if parsed = .null then
      { state := st, rooms := rooms, events := [], threw := true }
    else if jget parsed "type" = .str "register" then
      handleRegister rs sock parsed st rooms
    else
      let r := relayMessage rs now sock parsed st rooms
      { state := st, rooms := r.rooms, events := r.events, threw := r.threw }

/-- The `ws.on('message')` wrapper: run `handleMessage`; if it threw,
the `catch` block runs `handleMessage` again on the same frame against
the already-mutated state; an exception from that second run escapes the
event handler (`threw = true` in the result means a fatal uncaught
exception). -/
def onMessage (rs : Nat → Nat) (now : Nat) (sock : Nat)
    (raw : Option JValue) (st : ConnState) (rooms : Rooms) : HMOut :=
  let r1 := handleMessage rs now sock raw st rooms
  if r1.threw then
    let r2 := handleMessage rs now sock raw r1.state r1.rooms
    { state := r2.state, rooms := r2.rooms,
      events := r1.events ++ r2.events, threw := r2.threw }
  else r1

/-! ### Semantic predicates -/

/-- The connection is registered: the guard
`!state.role || !state.code || !state.name` does not fire. -/
def registered (st : ConnState) : Prop :=
  (truthy st.role && truthy st.code && truthy st.name) = true

instance (st : ConnState) : Decidable (registered st) := by
  unfold registered; infer_instance

/-- The spec's connection-state invariant: `role`, `code`, `name` are
either all set (truthy) or all unset (`undefined`). -/
def allSetOrUnset (st : ConnState) : Prop :=
  (truthy st.role = true ∧ truthy st.code = true ∧ truthy st.name = true) ∨
    (st.role = .undef ∧ st.code = .undef ∧ st.name = .undef)

instance (st : ConnState) : Decidable (allSetOrUnset st) := by
  unfold allSetOrUnset; infer_instance

/-- A room that justifies its registry entry: it has a bound streamer or
a non-empty player map. -/
def roomNonempty (room : Room) : Prop :=
  room.streamer.isSome = true ∨ room.players ≠ []

instance (room : Room) : Decidable (roomNonempty room) := by
  unfold roomNonempty; infer_instance

/-- The spec's registry invariant: every room present in the registry
has a bound streamer or at least one player. -/
def roomsInv (rooms : Rooms) : Prop :=
  ∀ p ∈ rooms, roomNonempty p.2

instance (rooms : Rooms) : Decidable (roomsInv rooms) :=
  List.decidableBAll _ rooms

/-- Well-formedness that every state reachable through JavaScript `Map`s
has: distinct keys in the registry and in every player map. -/
def roomsWF (rooms : Rooms) : Prop :=
  keysNodup rooms ∧ ∀ p ∈ rooms, keysNodup p.2.players

instance {α β : Type} [DecidableEq α] (m : List (α × β)) :
    Decidable (keysNodup m) := by
  unfold keysNodup; infer_instance

instance (rooms : Rooms) : Decidable (roomsWF rooms) := by
  unfold roomsWF
  haveI : Decidable (∀ p ∈ rooms, keysNodup p.2.players) :=
    List.decidableBAll _ rooms
  infer_instance

/-! ### Concrete fixtures for witnesses and counterexamples -/

/-- A readiness map in which every socket is OPEN. -/
def rsOpen : Nat → Nat := fun _ => 1

/-- A well-formed `register` message. -/
def registerMsg (role code name : String) : JValue :=
  jobj [("type", .str "register"), ("role", .str role),
    ("code", .str code), ("name", .str name)]

/-- A `leave` message. -/
def leaveMsg : JValue :=
  jobj [("type", .str "leave")]

/-- An `offer` message with an opaque payload. -/
def offerMsg : JValue :=
  jobj [("type", .str "offer"), ("offer", .str "x")]

/-- A registered player connection state for room `AB`, name `A`. -/
def stPlayerA : ConnState :=
  ⟨.str "player", .str "AB", .str "A"⟩

/-- A room with streamer socket 9 and one player `A` on socket 0. -/
def roomAB : Room :=
  ⟨some 9, .str "S", [(.str "A", ⟨.str "A", 0⟩)]⟩

/-- A registry holding only `roomAB` under code `AB`. -/
def roomsAB : Rooms :=
  [(.str "AB", roomAB)]

/-- State after player `A` (socket 0) registers for room `AB` on an
empty registry. -/
def c1r1 : HMOut :=
  handleMessage rsOpen 0 0 (some (registerMsg "player" "AB" "A"))
    initialState []

/-- State after that player then sends `leave` (its room is deleted). -/
def c1r2 : HMOut :=
  handleMessage rsOpen 0 0 (some leaveMsg) c1r1.state c1r1.rooms

/-- State after the still-registered player then sends an `offer`. -/
def c1r3 : HMOut :=
  handleMessage rsOpen 0 0 (some offerMsg) c1r2.state c1r2.rooms

/-- State after a first `register` that carries no `role` field: it is
not a no-op — it sets `state.code`, inserts a player entry under the
key `undefined`, and replies `registered`. -/
def c9r1 : HMOut :=
  handleMessage rsOpen 0 0
    (some (jobj [("type", .str "register"), ("code", .str "ab")]))
    initialState []

/-- State after a second `register` on the same connection. -/
def c9r2 : HMOut :=
  handleMessage rsOpen 0 0 (some (registerMsg "player" "CD" "X"))
    c9r1.state c9r1.rooms

/-- Streamer `S` (socket 9) registers for room `AB` on an empty
registry. -/
def c2r1 : HMOut :=
  handleMessage rsOpen 0 9 (some (registerMsg "streamer" "AB" "S"))
    initialState []

/-- Connection A (socket 10) registers as player `Alice` in room `AB`. -/
def c2r2 : HMOut :=
  handleMessage rsOpen 0 10 (some (registerMsg "player" "AB" "Alice"))
    initialState c2r1.rooms

/-- Connection B (socket 20) registers as player `Alice` in room `AB`
afterwards, replacing the map entry. -/
def c2r3 : HMOut :=
  handleMessage rsOpen 0 20 (some (registerMsg "player" "AB" "Alice"))
    initialState c2r2.rooms

/-- Cleanup then runs for connection A (its `leave`), with A's own
registration state. -/
def c2r4 : HMOut :=
  handleMessage rsOpen 0 10 (some leaveMsg) c2r2.state c2r3.rooms

/-- A `score-update` message carrying 5 points. -/
def scoreMsg : JValue :=
  jobj [("type", .str "score-update"), ("score", .num 5)]

/-- Player `A` (socket 0) sends `score-update` in a room whose streamer
is socket 9 (state as after `c2r2`-style registrations). -/
def c6r3 : HMOut :=
  handleMessage rsOpen 7 0 (some scoreMsg) stPlayerA roomsAB


/-! ### Association-list lemmas (JavaScript `Map` semantics) -/

section MapLemmas

variable {α β : Type} [DecidableEq α]

theorem mapGet_mapSet_self (m : List (α × β)) (k : α) (v : β) :
    mapGet (mapSet m k v) k = some v := by
  induction m with
  | nil => simp [mapSet, mapGet]
  | cons hd tl ih =>
    obtain ⟨k0, v0⟩ := hd
    by_cases h : k0 = k <;> simp [mapSet, mapGet, h, ih]

theorem mapGet_mapSet_ne (m : List (α × β)) (k k' : α) (v : β) (h : k ≠ k') :
    mapGet (mapSet m k v) k' = mapGet m k' := by
  induction m with
  | nil => simp [mapSet, mapGet, h]
  | cons hd tl ih =>
    obtain ⟨k0, v0⟩ := hd
    by_cases hk : k0 = k
    · subst hk
      simp [mapSet, mapGet, h]
    · simp [mapSet, mapGet, hk, ih]

theorem mapSet_mapSet (m : List (α × β)) (k : α) (a b : β) :
    mapSet (mapSet m k a) k b = mapSet m k b := by
  induction m with
  | nil => simp [mapSet]
  | cons hd tl ih =>
    obtain ⟨k0, v0⟩ := hd
    by_cases h : k0 = k <;> simp [mapSet, h, ih]

theorem mapSet_of_mapGet (m : List (α × β)) (k : α) (v : β)
    (h : mapGet m k = some v) : mapSet m k v = m := by
  induction m with
  | nil => simp [mapGet] at h
  | cons hd tl ih =>
    obtain ⟨k0, v0⟩ := hd
    by_cases hk : k0 = k
    · simp [mapGet, hk] at h
      simp [mapSet, hk, h]
    · simp [mapGet, hk] at h
      simp [mapSet, hk, ih h]

theorem mapDelete_mapSet (m : List (α × β)) (k : α) (v : β) :
    mapDelete (mapSet m k v) k = mapDelete m k := by
  induction m with
  | nil => simp [mapSet, mapDelete]
  | cons hd tl ih =>
    obtain ⟨k0, v0⟩ := hd
    by_cases h : k0 = k <;> simp [mapSet, mapDelete, h, ih]

theorem mapDelete_of_mapGet_none (m : List (α × β)) (k : α)
    (h : mapGet m k = none) : mapDelete m k = m := by
  induction m with
  | nil => simp [mapDelete]
  | cons hd tl ih =>
    obtain ⟨k0, v0⟩ := hd
    by_cases hk : k0 = k
    · simp [mapGet, hk] at h
    · simp [mapGet, hk] at h
      simp [mapDelete, hk, ih h]

theorem mem_mapSet {m : List (α × β)} {k : α} {v : β} {p : α × β}
    (h : p ∈ mapSet m k v) : p ∈ m ∨ p = (k, v) := by
  induction m with
  | nil => simp [mapSet] at h; right; exact h
  | cons hd tl ih =>
    obtain ⟨k0, v0⟩ := hd
    by_cases hk : k0 = k
    · subst hk
      simp [mapSet] at h
      rcases h with h | h
      · right; rw [h]
      · left; simp [h]
    · simp [mapSet, hk] at h
      rcases h with h | h
      · left; simp [h]
      · rcases ih h with h' | h'
        · left; simp [h']
        · right; exact h'

theorem mem_mapDelete {m : List (α × β)} {k : α} {p : α × β}
    (h : p ∈ mapDelete m k) : p ∈ m := by
  induction m with
  | nil => simp [mapDelete] at h
  | cons hd tl ih =>
    obtain ⟨k0, v0⟩ := hd
    by_cases hk : k0 = k
    · simp [mapDelete, hk] at h
      simp [h]
    · simp [mapDelete, hk] at h
      rcases h with h | h
      · simp [h]
      · simp [ih h]

theorem mapSet_ne_nil (m : List (α × β)) (k : α) (v : β) :
    mapSet m k v ≠ [] := by
  cases m with
  | nil => simp [mapSet]
  | cons hd tl =>
    obtain ⟨k0, v0⟩ := hd
    by_cases h : k0 = k <;> simp [mapSet, h]

theorem mapGet_mem {m : List (α × β)} {k : α} {v : β}
    (h : mapGet m k = some v) : (k, v) ∈ m := by
  induction m with
  | nil => simp [mapGet] at h
  | cons hd tl ih =>
    obtain ⟨k0, v0⟩ := hd
    by_cases hk : k0 = k
    · subst hk
      simp [mapGet] at h
      subst h
      exact List.mem_cons_self _ _
    · simp [mapGet, hk] at h
      exact List.mem_cons_of_mem _ (ih h)

theorem mapGet_mapDelete_self {m : List (α × β)} (k : α)
    (h : keysNodup m) : mapGet (mapDelete m k) k = none := by
  induction m with
  | nil => simp [mapDelete, mapGet]
  | cons hd tl ih =>
    obtain ⟨k0, v0⟩ := hd
    rw [keysNodup, List.map_cons, List.nodup_cons] at h
    by_cases hk : k0 = k
    · subst hk
      cases hget : mapGet tl k0 with
      | none => simp [mapDelete, hget]
      | some v =>
        exact absurd (List.mem_map_of_mem Prod.fst (mapGet_mem hget)) h.1
    · rw [mapDelete, if_neg hk, mapGet, if_neg hk]
      exact ih h.2

theorem keysNodup_mapSet {m : List (α × β)} (k : α) (v : β)
    (h : keysNodup m) : keysNodup (mapSet m k v) := by
  induction m with
  | nil => simp [mapSet, keysNodup]
  | cons hd tl ih =>
    obtain ⟨k0, v0⟩ := hd
    rw [keysNodup, List.map_cons, List.nodup_cons] at h
    by_cases hk : k0 = k
    · subst hk
      rw [mapSet, if_pos rfl, keysNodup, List.map_cons, List.nodup_cons]
      exact h
    · rw [mapSet, if_neg hk, keysNodup, List.map_cons, List.nodup_cons]
      refine ⟨fun hmem => ?_, ih h.2⟩
      rcases List.mem_map.mp hmem with ⟨p, hp, hfst⟩
      rcases mem_mapSet hp with hp' | hp'
      · exact h.1 (hfst ▸ List.mem_map_of_mem Prod.fst hp')
      · apply hk
        rw [hp'] at hfst
        exact hfst.symm

theorem keysNodup_mapDelete {m : List (α × β)} (k : α)
    (h : keysNodup m) : keysNodup (mapDelete m k) := by
  induction m with
  | nil => simp [mapDelete, keysNodup]
  | cons hd tl ih =>
    obtain ⟨k0, v0⟩ := hd
    rw [keysNodup, List.map_cons, List.nodup_cons] at h
    by_cases hk : k0 = k
    · rw [mapDelete, if_pos hk]
      exact h.2
    · rw [mapDelete, if_neg hk, keysNodup, List.map_cons, List.nodup_cons]
      refine ⟨fun hmem => ?_, ih h.2⟩
      rcases List.mem_map.mp hmem with ⟨p, hp, hfst⟩
      exact h.1 (hfst ▸ List.mem_map_of_mem Prod.fst (mem_mapDelete hp))

end MapLemmas

/-! ### Helper lemmas about the cleanup blocks -/

theorem cleanupPlayerPart_streamer (rs : Nat → Nat) (role name : JValue)
    (room : Room) :
    (cleanupPlayerPart rs role name room).1.streamer = room.streamer := by
  by_cases h1 : role = JValue.str "player" ∧ truthy name = true
  · by_cases h2 : mapHas room.players name = true <;>
      simp [cleanupPlayerPart, h1, h2]
  · simp [cleanupPlayerPart, h1]

theorem cleanupStreamerPart_players (rs : Nat → Nat) (role : JValue)
    (sock : Nat) (room : Room) :
    (cleanupStreamerPart rs role sock room).1.players = room.players := by
  by_cases h1 : role = JValue.str "streamer" ∧ room.streamer = some sock <;>
    simp [cleanupStreamerPart, h1]

theorem cleanupPlayerPart_fix (rs : Nat → Nat) (role name : JValue)
    (room : Room) (h : keysNodup room.players) :
    cleanupPlayerPart rs role name (cleanupPlayerPart rs role name room).1 =
      ((cleanupPlayerPart rs role name room).1, []) := by
  by_cases h1 : role = JValue.str "player" ∧ truthy name = true
  · by_cases h2 : mapHas room.players name = true
    · have hdel : mapHas (mapDelete room.players name) name = false := by
        unfold mapHas
        rw [mapGet_mapDelete_self name h]
        rfl
      simp [cleanupPlayerPart, h1, h2, hdel]
    · simp [cleanupPlayerPart, h1, h2]
  · simp [cleanupPlayerPart, h1]

theorem cleanupStreamerPart_fix (rs : Nat → Nat) (role : JValue)
    (sock : Nat) (room : Room) :
    cleanupStreamerPart rs role sock (cleanupStreamerPart rs role sock room).1 =
      ((cleanupStreamerPart rs role sock room).1, []) := by
  by_cases h1 : role = JValue.str "streamer" ∧ room.streamer = some sock
  · simp [cleanupStreamerPart, h1]
  · simp [cleanupStreamerPart, h1]

theorem cleanupPlayerPart_keysNodup (rs : Nat → Nat) (role name : JValue)
    (room : Room) (h : keysNodup room.players) :
    keysNodup (cleanupPlayerPart rs role name room).1.players := by
  by_cases h1 : role = JValue.str "player" ∧ truthy name = true
  · by_cases h2 : mapHas room.players name = true
    · simpa [cleanupPlayerPart, h1, h2] using keysNodup_mapDelete name h
    · simpa [cleanupPlayerPart, h1, h2] using h
  · simpa [cleanupPlayerPart, h1] using h

theorem cleanupPlayerPart_emptyRoom (rs : Nat → Nat) (role name : JValue) :
    cleanupPlayerPart rs role name emptyRoom = (emptyRoom, []) := by
  by_cases h1 : role = JValue.str "player" ∧ truthy name = true <;>
    simp [cleanupPlayerPart, h1, emptyRoom, mapHas, mapGet]

theorem cleanupStreamerPart_emptyRoom (rs : Nat → Nat) (role : JValue)
    (sock : Nat) :
    cleanupStreamerPart rs role sock emptyRoom = (emptyRoom, []) := by
  simp [cleanupStreamerPart, emptyRoom]

theorem cleanupBoth_emptyRoom (rs : Nat → Nat) (role name : JValue)
    (sock : Nat) :
    cleanupBoth rs role name sock emptyRoom = (emptyRoom, []) := by
  simp [cleanupBoth, cleanupPlayerPart_emptyRoom, cleanupStreamerPart_emptyRoom]

theorem cleanupBoth_keysNodup (rs : Nat → Nat) (role name : JValue)
    (sock : Nat) (room : Room) (h : keysNodup room.players) :
    keysNodup (cleanupBoth rs role name sock room).1.players := by
  simp only [cleanupBoth, cleanupStreamerPart_players]
  exact cleanupPlayerPart_keysNodup rs role name room h

/-- Running the two cleanup blocks a second time on the already-cleaned
room changes nothing and sends nothing. -/
theorem cleanupBoth_fix (rs : Nat → Nat) (role name : JValue) (sock : Nat)
    (room : Room) (h : keysNodup room.players) :
    cleanupBoth rs role name sock (cleanupBoth rs role name sock room).1 =
      ((cleanupBoth rs role name sock room).1, []) := by
  have hpr2 :
      cleanupPlayerPart rs role name (cleanupBoth rs role name sock room).1 =
        ((cleanupBoth rs role name sock room).1, []) := by
    by_cases h1 : role = JValue.str "player" ∧ truthy name = true
    · have hsr :
          cleanupBoth rs role name sock room =
            ((cleanupPlayerPart rs role name room).1,
              (cleanupPlayerPart rs role name room).2 ++ []) := by
        simp [cleanupBoth, cleanupStreamerPart, h1.1]
      rw [hsr]
      exact cleanupPlayerPart_fix rs role name room h
    · simp [cleanupPlayerPart, h1]
  have hsr2 :
      cleanupStreamerPart rs role sock (cleanupBoth rs role name sock room).1 =
        ((cleanupBoth rs role name sock room).1, []) := by
    have : (cleanupBoth rs role name sock room).1 =
        (cleanupStreamerPart rs role sock
          (cleanupPlayerPart rs role name room).1).1 := by
      simp [cleanupBoth]
    rw [this]
    exact cleanupStreamerPart_fix rs role sock
      (cleanupPlayerPart rs role name room).1
  generalize hX : (cleanupBoth rs role name sock room).1 = X at hpr2 hsr2 ⊢
  simp [cleanupBoth, hpr2, hsr2]

/-- Closed form of `cleanupConnection` when the room exists. -/
theorem cleanupConnection_some (rs : Nat → Nat) (code role name : JValue)
    (sock : Nat) (rooms : Rooms) (room : Room)
    (hg : (truthy code && truthy role) = true)
    (hget : mapGet rooms code = some room) :
    cleanupConnection rs code role name sock rooms =
      if (cleanupBoth rs role name sock room).1.streamer = none ∧
          (cleanupBoth rs role name sock room).1.players = [] then
        (mapDelete (mapSet rooms code (cleanupBoth rs role name sock room).1)
          code, (cleanupBoth rs role name sock room).2)
      else
        (mapSet rooms code (cleanupBoth rs role name sock room).1,
          (cleanupBoth rs role name sock room).2) := by
  simp [cleanupConnection, hg, hget]

/-- `cleanupConnection` is idempotent on the registry: a second run for
the same connection leaves the registry untouched and sends nothing. -/
theorem cleanupConnection_idem (rs : Nat → Nat) (code role name : JValue)
    (sock : Nat) (rooms : Rooms) (hwf : roomsWF rooms) :
    cleanupConnection rs code role name sock
        (cleanupConnection rs code role name sock rooms).1 =
      ((cleanupConnection rs code role name sock rooms).1, []) := by
  by_cases hg : (truthy code && truthy role) = true
  · cases hget : mapGet rooms code with
    | none => simp [cleanupConnection, hg, hget]
    | some room =>
      have hpn : keysNodup room.players := hwf.2 (code, room) (mapGet_mem hget)
      rw [cleanupConnection_some rs code role name sock rooms room hg hget]
      by_cases hempty : (cleanupBoth rs role name sock room).1.streamer = none ∧
          (cleanupBoth rs role name sock room).1.players = []
      · rw [if_pos hempty]
        have hdel : mapDelete
            (mapSet rooms code (cleanupBoth rs role name sock room).1) code =
            mapDelete rooms code := mapDelete_mapSet rooms code _
        have hnone : mapGet (mapDelete rooms code) code = none :=
          mapGet_mapDelete_self code hwf.1
        simp [cleanupConnection, hg, hdel, hnone]
      · rw [if_neg hempty]
        have hget2 : mapGet
            (mapSet rooms code (cleanupBoth rs role name sock room).1) code =
            some (cleanupBoth rs role name sock room).1 :=
          mapGet_mapSet_self rooms code _
        rw [cleanupConnection_some rs code role name sock _ _ hg hget2,
          cleanupBoth_fix rs role name sock room hpn]
        rw [if_neg hempty]
        simp [mapSet_mapSet]
  · simp [cleanupConnection, hg]

/-- Running `cleanupConnection` after `getRoom` ensured the room is the
same as running it on the original registry (for a truthy code and
role): the freshly created empty room is deleted again at the end. -/
theorem cleanupConnection_getRoom (rs : Nat → Nat) (code role name : JValue)
    (sock : Nat) (rooms : Rooms)
    (hg : (truthy code && truthy role) = true) :
    cleanupConnection rs code role name sock (getRoom rooms code).2 =
      cleanupConnection rs code role name sock rooms := by
  cases hget : mapGet rooms code with
  | some room => simp [getRoom, hget]
  | none =>
    have hget2 : mapGet (mapSet rooms code emptyRoom) code = some emptyRoom :=
      mapGet_mapSet_self rooms code emptyRoom
    rw [getRoom, hget]
    rw [cleanupConnection_some rs code role name sock _ _ hg hget2,
      cleanupBoth_emptyRoom]
    rw [if_pos (by simp [emptyRoom])]
    rw [mapDelete_mapSet, mapDelete_mapSet,
      mapDelete_of_mapGet_none rooms code hget]
    simp [cleanupConnection, hg, hget]

/-- `cleanupConnection` preserves the registry invariant. -/
theorem cleanupConnection_inv (rs : Nat → Nat) (code role name : JValue)
    (sock : Nat) (rooms : Rooms) (h : roomsInv rooms) :
    roomsInv (cleanupConnection rs code role name sock rooms).1 := by
  by_cases hg : (truthy code && truthy role) = true
  · cases hget : mapGet rooms code with
    | none => simpa [cleanupConnection, hg, hget] using h
    | some room =>
      rw [cleanupConnection_some rs code role name sock rooms room hg hget]
      by_cases hempty : (cleanupBoth rs role name sock room).1.streamer = none ∧
          (cleanupBoth rs role name sock room).1.players = []
      · rw [if_pos hempty]
        show roomsInv (mapDelete
          (mapSet rooms code (cleanupBoth rs role name sock room).1) code)
        rw [mapDelete_mapSet]
        exact fun p hp => h p (mem_mapDelete hp)
      · rw [if_neg hempty]
        show roomsInv (mapSet rooms code (cleanupBoth rs role name sock room).1)
        intro p hp
        rcases mem_mapSet hp with hp' | hp'
        · exact h p hp'
        · rw [hp']
          rcases not_and_or.mp hempty with hs | hps
          · exact Or.inl (Option.ne_none_iff_isSome.mp hs)
          · exact Or.inr hps
  · simpa [cleanupConnection, hg] using h

theorem roomsInv_mapSet (rooms : Rooms) (code : JValue) (room : Room)
    (h : roomsInv rooms) (hroom : roomNonempty room) :
    roomsInv (mapSet rooms code room) := by
  intro p hp
  rcases mem_mapSet hp with hp' | hp'
  · exact h p hp'
  · rw [hp']
    exact hroom

theorem registerStreamer_inv (rs : Nat → Nat) (sock : Nat) (st1 : ConnState)
    (rooms : Rooms) (h : roomsInv rooms) :
    roomsInv (registerStreamer rs sock st1 (getRoom rooms st1.code).1
      (getRoom rooms st1.code).2).rooms := by
  cases hget : mapGet rooms st1.code with
  | some room =>
    have hgr : getRoom rooms st1.code = (room, rooms) := by simp [getRoom, hget]
    rw [hgr]
    unfold registerStreamer
    split
    · exact h
    · exact roomsInv_mapSet rooms st1.code _ h (Or.inl rfl)
  | none =>
    have hgr : getRoom rooms st1.code =
        (emptyRoom, mapSet rooms st1.code emptyRoom) := by simp [getRoom, hget]
    rw [hgr]
    unfold registerStreamer
    split
    · next hc => exact absurd hc (by simp [emptyRoom])
    · show roomsInv (mapSet (mapSet rooms st1.code emptyRoom) st1.code _)
      rw [mapSet_mapSet]
      exact roomsInv_mapSet rooms st1.code _ h (Or.inl rfl)

theorem registerPlayer_inv (rs : Nat → Nat) (sock : Nat) (st1 : ConnState)
    (rooms : Rooms) (h : roomsInv rooms) :
    roomsInv (registerPlayer rs sock st1 (getRoom rooms st1.code).1
      (getRoom rooms st1.code).2).rooms := by
  cases hget : mapGet rooms st1.code with
  | some room =>
    have hgr : getRoom rooms st1.code = (room, rooms) := by simp [getRoom, hget]
    rw [hgr]
    unfold registerPlayer
    exact roomsInv_mapSet rooms st1.code _ h
      (Or.inr (mapSet_ne_nil room.players st1.name ⟨st1.name, sock⟩))
  | none =>
    have hgr : getRoom rooms st1.code =
        (emptyRoom, mapSet rooms st1.code emptyRoom) := by simp [getRoom, hget]
    rw [hgr]
    unfold registerPlayer
    show roomsInv (mapSet (mapSet rooms st1.code emptyRoom) st1.code _)
    rw [mapSet_mapSet]
    exact roomsInv_mapSet rooms st1.code _ h
      (Or.inr (mapSet_ne_nil emptyRoom.players st1.name ⟨st1.name, sock⟩))

/-- The `register` branch preserves the registry invariant: it never
leaves an empty room behind. -/
theorem handleRegister_inv (rs : Nat → Nat) (sock : Nat) (parsed : JValue)
    (st : ConnState) (rooms : Rooms) (h : roomsInv rooms) :
    roomsInv (handleRegister rs sock parsed st rooms).rooms := by
  by_cases hdup : truthy st.role = true
  · simpa [handleRegister, hdup] using h
  · cases hcode : jget parsed "code" with
    | str c =>
      by_cases hrole : jget parsed "role" = JValue.str "streamer"
      · simpa [handleRegister, hdup, hcode, hrole] using
          registerStreamer_inv rs sock
            ⟨jget parsed "role", .str (jsToUpper c), jget parsed "name"⟩ rooms h
      · simpa [handleRegister, hdup, hcode, hrole] using
          registerPlayer_inv rs sock
            ⟨jget parsed "role", .str (jsToUpper c), jget parsed "name"⟩ rooms h
    | undef => simpa [handleRegister, hdup, hcode] using h
    | null => simpa [handleRegister, hdup, hcode] using h
    | bool b => simpa [handleRegister, hdup, hcode] using h
    | num n => simpa [handleRegister, hdup, hcode] using h
    | arrNil => simpa [handleRegister, hdup, hcode] using h
    | arrCons x y => simpa [handleRegister, hdup, hcode] using h
    | objNil => simpa [handleRegister, hdup, hcode] using h
    | objCons k v r => simpa [handleRegister, hdup, hcode] using h

theorem jget_null (k : String) : jget JValue.null k = JValue.undef := rfl

theorem ne_null_of_jget_str {parsed : JValue} {k s : String}
    (h : jget parsed k = JValue.str s) : parsed ≠ JValue.null := by
  intro hn
  rw [hn, jget_null] at h
  exact absurd h (by simp)

/-- Unfolding of `handleMessage` on a non-`register`, non-`null` parsed
message: the connection state is returned untouched. -/
theorem handleMessage_relay (rs : Nat → Nat) (now sock : Nat)
    (parsed : JValue) (st : ConnState) (rooms : Rooms)
    (hnull : parsed ≠ JValue.null)
    (hreg : jget parsed "type" ≠ JValue.str "register") :
    handleMessage rs now sock (some parsed) st rooms =
      { state := st,
        rooms := (relayMessage rs now sock parsed st rooms).rooms,
        events := (relayMessage rs now sock parsed st rooms).events,
        threw := (relayMessage rs now sock parsed st rooms).threw } := by
  simp [handleMessage, hnull, hreg]

/-- A `leave` message from a registered connection runs
`cleanupConnection` against the original registry. -/
theorem relayMessage_leave (rs : Nat → Nat) (now sock : Nat)
    (parsed : JValue) (st : ConnState) (rooms : Rooms)
    (hreg : registered st)
    (htype : jget parsed "type" = JValue.str "leave") :
    relayMessage rs now sock parsed st rooms =
      { rooms := (cleanupConnection rs st.code st.role st.name sock rooms).1,
        events := (cleanupConnection rs st.code st.role st.name sock rooms).2,
        threw := false } := by
  have hr : (truthy st.role && truthy st.code && truthy st.name) = true := hreg
  have hcr : (truthy st.code && truthy st.role) = true := by
    simp only [Bool.and_eq_true] at hr ⊢
    exact ⟨hr.1.2, hr.1.1⟩
  simp only [relayMessage, hr, if_pos, relaySwitch, htype]
  rw [← cleanupConnection_getRoom rs st.code st.role st.name sock rooms hcr]
  simp

/-- A `register` on a connection whose `role` is already set is ignored
before anything else happens. -/
theorem register_duplicate_noop (rs : Nat → Nat) (now sock : Nat)
    (parsed : JValue) (st : ConnState) (rooms : Rooms)
    (hrole : truthy st.role = true)
    (htype : jget parsed "type" = JValue.str "register") :
    handleMessage rs now sock (some parsed) st rooms =
      { state := st, rooms := rooms, events := [], threw := false } := by
  have hnn := ne_null_of_jget_str htype
  simp [handleMessage, hnn, htype, handleRegister, hrole]

/-- The relay switch never emits an `error` message on an `offer`,
`answer` or `candidate` frame: the only outbound messages there are
forwards. -/
theorem relaySwitch_forward_no_error (rs : Nat → Nat) (now sock : Nat)
    (parsed : JValue) (st : ConnState) (room : Room) (rooms1 : Rooms)
    (e : String) (target : Nat)
    (h : jget parsed "type" = JValue.str "offer" ∨
      jget parsed "type" = JValue.str "answer" ∨
      jget parsed "type" = JValue.str "candidate") :
    Event.send target (OutMsg.error e) ∉
      (relaySwitch rs now sock parsed st room rooms1).events := by
  rcases h with h | h | h
  · unfold relaySwitch
    rw [h, if_pos rfl]
    repeat' split
    all_goals simp
  · unfold relaySwitch
    rw [h, if_neg (by decide), if_pos rfl]
    repeat' split
    all_goals simp
  · unfold relaySwitch
    rw [h, if_neg (by decide), if_neg (by decide), if_pos rfl]
    repeat' split
    all_goals simp

/-! ### C1 -/

/-- C1 fails on the code: after register, leave (which deletes room
`AB`), and then an `offer` from the still-registered connection, the
relay's get-or-create lookup re-inserts room `AB` and leaves it in the
registry empty — no streamer and no players — violating the claimed
if-and-only-if registry invariant. -/
theorem c1_counterexample :
    c1r2.rooms = [] ∧ c1r3.rooms = [(JValue.str "AB", emptyRoom)] ∧
      ¬ roomsInv c1r3.rooms := by
  refine ⟨by decide, by decide, by decide⟩

/-- C1 (amended): the registry invariant — a room is present iff it has
a bound streamer or a non-empty player map — is preserved by `register`
messages, by `leave` messages, and by disconnect cleanup; only the relay
branches (`offer`/`answer`/`candidate`/`score-update`/unknown kinds)
from a registered connection can break it, by re-creating the bound room
empty via get-or-create. -/
theorem c1_amended_invariant_preservation (rs : Nat → Nat) (now sock : Nat)
    (parsedReg parsedLeave : JValue) (st stL : ConnState)
    (code role name : JValue) (rooms : Rooms)
    (h : roomsInv rooms)
    (hreg : jget parsedReg "type" = JValue.str "register")
    (hleave : jget parsedLeave "type" = JValue.str "leave") :
    roomsInv (handleMessage rs now sock (some parsedReg) st rooms).rooms ∧
    roomsInv (handleMessage rs now sock (some parsedLeave) stL rooms).rooms ∧
    roomsInv (cleanupConnection rs code role name sock rooms).1 := by
  refine ⟨?_, ?_, cleanupConnection_inv rs code role name sock rooms h⟩
  · have hnn := ne_null_of_jget_str hreg
    simp only [handleMessage]
    rw [if_neg hnn, if_pos (by rw [hreg])]
    exact handleRegister_inv rs sock parsedReg st rooms h
  · by_cases hregd : registered stL
    · rw [handleMessage_relay rs now sock parsedLeave stL rooms
        (ne_null_of_jget_str hleave) (by rw [hleave]; simp),
        relayMessage_leave rs now sock parsedLeave stL rooms hregd hleave]
      exact cleanupConnection_inv rs stL.code stL.role stL.name sock rooms h
    · rw [handleMessage_relay rs now sock parsedLeave stL rooms
        (ne_null_of_jget_str hleave) (by rw [hleave]; simp)]
      have hregd' :
          ¬ (truthy stL.role && truthy stL.code && truthy stL.name) = true :=
        hregd
      simp only [relayMessage, if_neg hregd']
      exact h

/-- Witness for the amended C1 at a concrete input. -/
theorem c1_amended_witness :
    roomsInv roomsAB ∧
    jget (registerMsg "player" "AB" "B") "type" = JValue.str "register" ∧
    jget leaveMsg "type" = JValue.str "leave" ∧
    (roomsInv (handleMessage rsOpen 0 3
        (some (registerMsg "player" "AB" "B")) initialState roomsAB).rooms ∧
      roomsInv (handleMessage rsOpen 0 3 (some leaveMsg) stPlayerA
        roomsAB).rooms ∧
      roomsInv (cleanupConnection rsOpen (JValue.str "AB")
        (JValue.str "player") (JValue.str "A") 0 roomsAB).1) :=
  ⟨by decide, by decide, by decide,
    c1_amended_invariant_preservation rsOpen 0 3
      (registerMsg "player" "AB" "B") leaveMsg initialState stPlayerA
      (JValue.str "AB") (JValue.str "player") (JValue.str "A") roomsAB
      (by decide) (by decide) (by decide)⟩

/-! ### C8 -/

/-- C8: for a registered connection, a `leave` message and an abrupt
socket close produce the identical final registry (same rooms, player
maps and streamer bindings), and cleanup is idempotent — a second run
for the same connection changes nothing further and sends nothing. -/
theorem c8_leave_close_symmetric_and_idempotent (rs : Nat → Nat)
    (now sock : Nat) (parsed : JValue) (st : ConnState) (rooms : Rooms)
    (hreg : registered st)
    (htype : jget parsed "type" = JValue.str "leave")
    (hwf : roomsWF rooms) :
    (handleMessage rs now sock (some parsed) st rooms).rooms =
      (cleanupConnection rs st.code st.role st.name sock rooms).1 ∧
    cleanupConnection rs st.code st.role st.name sock
        (cleanupConnection rs st.code st.role st.name sock rooms).1 =
      ((cleanupConnection rs st.code st.role st.name sock rooms).1, []) := by
  constructor
  · rw [handleMessage_relay rs now sock parsed st rooms
      (ne_null_of_jget_str htype) (by rw [htype]; simp),
      relayMessage_leave rs now sock parsed st rooms hreg htype]
  · exact cleanupConnection_idem rs st.code st.role st.name sock rooms hwf

/-- Witness for C8 at a concrete input: player `A` leaves room `AB`
(which also has a streamer), versus its socket closing abruptly. -/
theorem c8_witness :
    registered stPlayerA ∧
    jget leaveMsg "type" = JValue.str "leave" ∧
    roomsWF roomsAB ∧
    ((handleMessage rsOpen 0 0 (some leaveMsg) stPlayerA roomsAB).rooms =
        (cleanupConnection rsOpen (JValue.str "AB") (JValue.str "player")
          (JValue.str "A") 0 roomsAB).1 ∧
      cleanupConnection rsOpen (JValue.str "AB") (JValue.str "player")
          (JValue.str "A") 0
          (cleanupConnection rsOpen (JValue.str "AB") (JValue.str "player")
            (JValue.str "A") 0 roomsAB).1 =
        ((cleanupConnection rsOpen (JValue.str "AB") (JValue.str "player")
          (JValue.str "A") 0 roomsAB).1, [])) :=
  ⟨by decide, by decide, by decide,
    c8_leave_close_symmetric_and_idempotent rsOpen 0 0 leaveMsg stPlayerA
      roomsAB (by decide) (by decide) (by decide)⟩

/-! ### C9 -/

/-- C9 is false on the code: after a first `register` without a `role`
field (which itself already had effect), a second `register` on the same
connection is not a no-op — it changes the connection state, mutates the
registry and sends a reply, because the duplicate check tests only the
truthiness of `state.role`. -/
theorem c9_counterexample :
    c9r2.state ≠ c9r1.state ∧ c9r2.rooms ≠ c9r1.rooms ∧
      c9r2.events ≠ [] := by
  refine ⟨by decide, by decide, by decide⟩

/-- C9 (amended): every `register` message received while the
connection's `role` is already set — in particular every register after
a first one that carried a truthy `role` — is a complete no-op: state,
registry and outbound traffic unchanged, and no exception. -/
theorem c9_amended_register_noop (rs : Nat → Nat) (now sock : Nat)
    (parsed : JValue) (st : ConnState) (rooms : Rooms)
    (hrole : truthy st.role = true)
    (htype : jget parsed "type" = JValue.str "register") :
    handleMessage rs now sock (some parsed) st rooms =
      { state := st, rooms := rooms, events := [], threw := false } :=
  register_duplicate_noop rs now sock parsed st rooms hrole htype

/-- Witness for the amended C9 at a concrete input. -/
theorem c9_amended_witness :
    truthy stPlayerA.role = true ∧
    jget (registerMsg "streamer" "ZZ" "Q") "type" = JValue.str "register" ∧
    handleMessage rsOpen 0 0 (some (registerMsg "streamer" "ZZ" "Q"))
        stPlayerA roomsAB =
      { state := stPlayerA, rooms := roomsAB, events := [],
        threw := false } :=
  ⟨by decide, by decide,
    c9_amended_register_noop rsOpen 0 0 (registerMsg "streamer" "ZZ" "Q")
      stPlayerA roomsAB (by decide) (by decide)⟩

/-! ### C10 -/

/-- C10: processing a `leave` message leaves the connection's own
`role`, `code`, `name` untouched, so the connection still counts as
registered afterwards: a later `register` is still ignored as a
duplicate, and later `offer`/`answer`/`candidate` messages are never
answered with the register-first error. -/
theorem c10_leave_keeps_registration (rs : Nat → Nat) (now sock : Nat)
    (parsedL parsedR parsedO : JValue) (st : ConnState)
    (rooms rooms2 rooms3 : Rooms)
    (hreg : registered st)
    (hL : jget parsedL "type" = JValue.str "leave")
    (hR : jget parsedR "type" = JValue.str "register")
    (hO : jget parsedO "type" = JValue.str "offer" ∨
      jget parsedO "type" = JValue.str "answer" ∨
      jget parsedO "type" = JValue.str "candidate") :
    (handleMessage rs now sock (some parsedL) st rooms).state = st ∧
    handleMessage rs now sock (some parsedR) st rooms2 =
      { state := st, rooms := rooms2, events := [], threw := false } ∧
    Event.send sock (OutMsg.error "Register before sending signaling messages.") ∉
      (handleMessage rs now sock (some parsedO) st rooms3).events := by
  have hrole : truthy st.role = true := by
    have h := hreg
    simp only [registered, Bool.and_eq_true] at h
    exact h.1.1
  refine ⟨?_, register_duplicate_noop rs now sock parsedR st rooms2 hrole hR, ?_⟩
  · rw [handleMessage_relay rs now sock parsedL st rooms
      (ne_null_of_jget_str hL) (by rw [hL]; simp)]
  · have hnn : parsedO ≠ JValue.null := by
      rcases hO with h | h | h <;> exact ne_null_of_jget_str h
    have hnr : jget parsedO "type" ≠ JValue.str "register" := by
      rcases hO with h | h | h <;> (rw [h]; simp)
    rw [handleMessage_relay rs now sock parsedO st rooms3 hnn hnr]
    have hr : (truthy st.role && truthy st.code && truthy st.name) = true :=
      hreg
    simp only [relayMessage, hr, if_pos]
    exact relaySwitch_forward_no_error rs now sock parsedO st
      (getRoom rooms3 st.code).1 (getRoom rooms3 st.code).2
      "Register before sending signaling messages." sock hO

/-- Witness for C10 at a concrete input: player `A` leaves, then sends
`register` and `offer` again. -/
theorem c10_witness :
    registered stPlayerA ∧
    (handleMessage rsOpen 0 0 (some leaveMsg) stPlayerA roomsAB).state =
      stPlayerA ∧
    handleMessage rsOpen 0 0 (some (registerMsg "player" "AB" "A"))
        stPlayerA [] =
      { state := stPlayerA, rooms := [], events := [], threw := false } ∧
    Event.send 0
        (OutMsg.error "Register before sending signaling messages.") ∉
      (handleMessage rsOpen 0 0 (some offerMsg) stPlayerA []).events :=
  ⟨by decide,
    (c10_leave_keeps_registration rsOpen 0 0 leaveMsg
      (registerMsg "player" "AB" "A") offerMsg stPlayerA roomsAB [] []
      (by decide) (by decide) (by decide) (Or.inl (by decide))).1,
    (c10_leave_keeps_registration rsOpen 0 0 leaveMsg
      (registerMsg "player" "AB" "A") offerMsg stPlayerA roomsAB [] []
      (by decide) (by decide) (by decide) (Or.inl (by decide))).2.1,
    (c10_leave_keeps_registration rsOpen 0 0 leaveMsg
      (registerMsg "player" "AB" "A") offerMsg stPlayerA roomsAB [] []
      (by decide) (by decide) (by decide) (Or.inl (by decide))).2.2⟩

/-! ### C4 -/

/-- C4: a streamer `register` for a room that already has a different
live streamer bound is rejected: the offending connection receives the
`error` message and is then closed with code 1008, while the registry —
the incumbent binding, its name, and the player map — is left completely
unchanged and nothing is sent to the incumbent or the players. -/
theorem c4_second_streamer_rejected (rs : Nat → Nat) (now sock s0 : Nat)
    (parsed : JValue) (st : ConnState) (rooms : Rooms) (room : Room)
    (c : String)
    (hrole : truthy st.role = false)
    (htype : jget parsed "type" = JValue.str "register")
    (hprole : jget parsed "role" = JValue.str "streamer")
    (hcode : jget parsed "code" = JValue.str c)
    (hroom : mapGet rooms (JValue.str (jsToUpper c)) = some room)
    (hs : room.streamer = some s0)
    (hlive : rs s0 = 1)
    (hne : s0 ≠ sock) :
    (handleMessage rs now sock (some parsed) st rooms).rooms = rooms ∧
    (handleMessage rs now sock (some parsed) st rooms).events =
      [Event.send sock
        (OutMsg.error "Streamer already connected for this lobby."),
       Event.close sock 1008 "Streamer already connected"] ∧
    (handleMessage rs now sock (some parsed) st rooms).threw = false := by
  have hnn := ne_null_of_jget_str htype
  have hdup : ¬ truthy st.role = true := by rw [hrole]; simp
  have hgr : getRoom rooms (JValue.str (jsToUpper c)) = (room, rooms) := by
    simp [getRoom, hroom]
  refine ⟨?_, ?_, ?_⟩ <;>
    simp [handleMessage, hnn, htype, handleRegister, hdup, hcode, hprole,
      hgr, registerStreamer, hs, hne]

/-- Witness for C4 at a concrete input: socket 2 tries to register as a
second streamer for room `AB` (incumbent: socket 9, open). -/
theorem c4_witness :
    truthy initialState.role = false ∧
    jget (registerMsg "streamer" "ab" "T") "type" = JValue.str "register" ∧
    jget (registerMsg "streamer" "ab" "T") "role" = JValue.str "streamer" ∧
    jget (registerMsg "streamer" "ab" "T") "code" = JValue.str "ab" ∧
    mapGet roomsAB (JValue.str (jsToUpper "ab")) = some roomAB ∧
    roomAB.streamer = some 9 ∧ rsOpen 9 = 1 ∧ 9 ≠ 2 ∧
    ((handleMessage rsOpen 0 2 (some (registerMsg "streamer" "ab" "T"))
        initialState roomsAB).rooms = roomsAB ∧
      (handleMessage rsOpen 0 2 (some (registerMsg "streamer" "ab" "T"))
          initialState roomsAB).events =
        [Event.send 2
          (OutMsg.error "Streamer already connected for this lobby."),
         Event.close 2 1008 "Streamer already connected"] ∧
      (handleMessage rsOpen 0 2 (some (registerMsg "streamer" "ab" "T"))
          initialState roomsAB).threw = false) :=
  ⟨by decide, by decide, by decide, by decide, by decide, by decide,
    by decide, by decide,
    c4_second_streamer_rejected rsOpen 0 2 9 (registerMsg "streamer" "ab" "T")
      initialState roomsAB roomAB "ab" (by decide) (by decide) (by decide)
      (by decide) (by decide) (by decide) (by decide) (by decide)⟩

/-! ### C5 -/

/-- C5 is false as stated: an unregistered connection that sends `offer`
is not dropped silently — it receives the
`Register before sending signaling messages.` error reply. -/
theorem c5_counterexample :
    (handleMessage rsOpen 0 5 (some offerMsg) initialState []).events =
      [Event.send 5
        (OutMsg.error "Register before sending signaling messages.")] := by
  decide

/-- C5 (amended): for a registered connection, `offer` is forwarded to
the room's streamer as `{type:"offer", name, offer}` with the payload
passed through unchanged if and only if the sender's role is `player`
and the room bound to the connection has a streamer whose socket is
open; in every other case nothing is sent to anyone.  (An unregistered
sender instead gets the register-first error reply.) -/
theorem c5_amended_offer_forwarding (rs : Nat → Nat) (now sock : Nat)
    (parsed : JValue) (st : ConnState) (rooms : Rooms)
    (hreg : registered st)
    (htype : jget parsed "type" = JValue.str "offer") :
    (handleMessage rs now sock (some parsed) st rooms).events =
      (match mapGet rooms st.code with
        | some room =>
          match room.streamer with
          | some s =>
            if st.role = JValue.str "player" ∧ rs s = 1 then
              [Event.send s (OutMsg.offer st.name (jget parsed "offer"))]
            else []
          | none => []
        | none => []) := by
  have hnn := ne_null_of_jget_str htype
  have hnr : jget parsed "type" ≠ JValue.str "register" := by
    rw [htype]; simp
  rw [handleMessage_relay rs now sock parsed st rooms hnn hnr]
  have hr : (truthy st.role && truthy st.code && truthy st.name) = true :=
    hreg
  simp only [relayMessage, hr, if_pos]
  cases hget : mapGet rooms st.code with
  | some room =>
    have hgr : getRoom rooms st.code = (room, rooms) := by
      simp [getRoom, hget]
    rw [hgr]
    unfold relaySwitch
    rw [htype, if_pos rfl]
    by_cases hrole : st.role = JValue.str "player"
    · rw [if_pos hrole]
      cases hs : room.streamer with
      | some s =>
        by_cases hlive : rs s = 1
        · simp [hs, hlive, hrole]
        · simp [hs, hlive, hrole]
      | none => simp [hs, hrole]
    · rw [if_neg hrole]
      cases hs : room.streamer with
      | some s => simp [hs, hrole]
      | none => simp [hs]
  | none =>
    have hgr : getRoom rooms st.code =
        (emptyRoom, mapSet rooms st.code emptyRoom) := by
      simp [getRoom, hget]
    rw [hgr]
    unfold relaySwitch
    rw [htype, if_pos rfl]
    by_cases hrole : st.role = JValue.str "player" <;>
      simp [hrole, emptyRoom]

/-- Witness for the amended C5 at a concrete input: registered player
`A` sends `offer` in room `AB` whose streamer socket 9 is open — the
offer is forwarded verbatim. -/
theorem c5_amended_witness :
    registered stPlayerA ∧
    jget offerMsg "type" = JValue.str "offer" ∧
    (handleMessage rsOpen 0 0 (some offerMsg) stPlayerA roomsAB).events =
      [Event.send 9 (OutMsg.offer (JValue.str "A") (JValue.str "x"))] :=
  ⟨by decide, by decide, by
    rw [c5_amended_offer_forwarding rsOpen 0 0 offerMsg stPlayerA roomsAB
      (by decide) (by decide)]
    decide⟩

/-! ### C6 -/

/-- C6 is false on the code in two ways.  First, `score-update` is a
kind outside {register, offer, answer, candidate, leave}, yet it is not
ignored: a registered player's `score-update` is broadcast to the
streamer.  Second (see the amended statement), an unknown kind re-creates
the bound room when it is absent. -/
theorem c6_counterexample :
    (jget scoreMsg "type" ≠ JValue.str "register" ∧
      jget scoreMsg "type" ≠ JValue.str "offer" ∧
      jget scoreMsg "type" ≠ JValue.str "answer" ∧
      jget scoreMsg "type" ≠ JValue.str "candidate" ∧
      jget scoreMsg "type" ≠ JValue.str "leave") ∧
    registered stPlayerA ∧
    c6r3.events =
      [Event.send 9
        (OutMsg.scoreUpdate (JValue.str "A") (JValue.num 5) 7)] := by
  refine ⟨⟨by decide, by decide, by decide, by decide, by decide⟩,
    by decide, by decide⟩

/-- C6 (amended): for a registered connection, a message whose kind is
none of register, offer, answer, candidate, leave, and `score-update` is
ignored — no reply, no forward, connection state untouched, no throw —
except that the bound room is looked up with get-or-create, so a fresh
empty room is inserted into the registry when it was absent. -/
theorem c6_amended_unknown_kind (rs : Nat → Nat) (now sock : Nat)
    (parsed : JValue) (st : ConnState) (rooms : Rooms)
    (hreg : registered st)
    (hnn : parsed ≠ JValue.null)
    (h1 : jget parsed "type" ≠ JValue.str "register")
    (h2 : jget parsed "type" ≠ JValue.str "offer")
    (h3 : jget parsed "type" ≠ JValue.str "answer")
    (h4 : jget parsed "type" ≠ JValue.str "candidate")
    (h5 : jget parsed "type" ≠ JValue.str "leave")
    (h6 : jget parsed "type" ≠ JValue.str "score-update") :
    handleMessage rs now sock (some parsed) st rooms =
      { state := st, rooms := (getRoom rooms st.code).2, events := [],
        threw := false } := by
  rw [handleMessage_relay rs now sock parsed st rooms hnn h1]
  have hr : (truthy st.role && truthy st.code && truthy st.name) = true :=
    hreg
  simp only [relayMessage, hr, if_pos]
  unfold relaySwitch
  rw [if_neg h2, if_neg h3, if_neg h4, if_neg h5, if_neg h6]

/-- Witness for the amended C6 at a concrete input: a registered player
whose room has been deleted sends an unknown kind; nothing is sent, but
the room is re-created empty. -/
theorem c6_amended_witness :
    registered stPlayerA ∧
    jobj [("type", JValue.str "mystery")] ≠ JValue.null ∧
    handleMessage rsOpen 0 0 (some (jobj [("type", JValue.str "mystery")]))
        stPlayerA [] =
      { state := stPlayerA,
        rooms := [(JValue.str "AB", emptyRoom)], events := [],
        threw := false } :=
  ⟨by decide, by decide, by
    rw [c6_amended_unknown_kind rsOpen 0 0
      (jobj [("type", JValue.str "mystery")]) stPlayerA []
      (by decide) (by decide) (by decide) (by decide) (by decide)
      (by decide) (by decide) (by decide)]
    decide⟩

/-! ### C7 -/

/-- C7 is false as stated: a streamer `register` rejected because room
`AB` already has a different live streamer does not leave the connection
unregistered — `role`, `code` and `name` were all assigned before the
rejection, so the rejected connection ends fully registered while it
also receives `error` and the 1008 close. -/
theorem c7_counterexample :
    (handleMessage rsOpen 0 2 (some (registerMsg "streamer" "AB" "T"))
        initialState roomsAB).events =
      [Event.send 2
        (OutMsg.error "Streamer already connected for this lobby."),
       Event.close 2 1008 "Streamer already connected"] ∧
    (handleMessage rsOpen 0 2 (some (registerMsg "streamer" "AB" "T"))
        initialState roomsAB).state =
      ⟨JValue.str "streamer", JValue.str "AB", JValue.str "T"⟩ ∧
    registered (handleMessage rsOpen 0 2
      (some (registerMsg "streamer" "AB" "T")) initialState roomsAB).state := by
  refine ⟨by decide, by decide, by decide⟩

/-- C7 (amended): provided every `register` message carries a truthy
`role`, a string `code` whose upper-casing is non-empty, and a truthy
`name`, the fields `role`, `code`, `name` are either all unset or all
set at every point; they are assigned by the connection's first
`register` message whether it is accepted or rejected — in particular a
rejected second streamer ends with all three fields set. -/
theorem c7_amended_all_or_nothing (rs : Nat → Nat) (now sock : Nat)
    (parsed : JValue) (c : String) (st : ConnState) (rooms : Rooms)
    (hgood : jget parsed "type" = JValue.str "register" →
      truthy (jget parsed "role") = true ∧
      jget parsed "code" = JValue.str c ∧
      truthy (JValue.str (jsToUpper c)) = true ∧
      truthy (jget parsed "name") = true)
    (hst : allSetOrUnset st) :
    allSetOrUnset (handleMessage rs now sock (some parsed) st rooms).state ∧
    (truthy st.role = false → jget parsed "type" = JValue.str "register" →
      registered (handleMessage rs now sock (some parsed) st rooms).state) := by
  by_cases htype : jget parsed "type" = JValue.str "register"
  · obtain ⟨hrole', hcode, hupper, hname⟩ := hgood htype
    have hnn := ne_null_of_jget_str htype
    have h1 : handleMessage rs now sock (some parsed) st rooms =
        handleRegister rs sock parsed st rooms := by
      simp [handleMessage, hnn, htype]
    rw [h1]
    by_cases hdup : truthy st.role = true
    · constructor
      · simpa [handleRegister, hdup] using hst
      · intro hF _
        rw [hdup] at hF
        cases hF
    · have hresult : (handleRegister rs sock parsed st rooms).state =
          ⟨jget parsed "role", JValue.str (jsToUpper c),
            jget parsed "name"⟩ := by
        by_cases hrs : jget parsed "role" = JValue.str "streamer"
        · by_cases hrej :
            (getRoom rooms (JValue.str (jsToUpper c))).1.streamer.isSome =
                true ∧
              (getRoom rooms (JValue.str (jsToUpper c))).1.streamer ≠
                some sock
          · simp [handleRegister, hdup, hcode, hrs, registerStreamer, hrej]
          · simp [handleRegister, hdup, hcode, hrs, registerStreamer, hrej]
        · simp [handleRegister, hdup, hcode, hrs, registerPlayer]
      rw [hresult]
      constructor
      · exact Or.inl ⟨hrole', hupper, hname⟩
      · intro _ _
        simp [registered, hrole', hupper, hname]
  · by_cases hnn : parsed = JValue.null
    · subst hnn
      constructor
      · simpa [handleMessage] using hst
      · intro _ hT
        rw [jget_null] at hT
        cases hT
    · rw [handleMessage_relay rs now sock parsed st rooms hnn htype]
      exact ⟨hst, fun _ hT => absurd hT htype⟩

/-- Witness for the amended C7 at a concrete input — the rejected second
streamer of the counterexample trace: its state ends all-set. -/
theorem c7_amended_witness :
    allSetOrUnset initialState ∧
    (allSetOrUnset (handleMessage rsOpen 0 2
        (some (registerMsg "streamer" "AB" "T"))
        initialState roomsAB).state ∧
      (truthy initialState.role = false →
        jget (registerMsg "streamer" "AB" "T") "type" =
          JValue.str "register" →
        registered (handleMessage rsOpen 0 2
          (some (registerMsg "streamer" "AB" "T"))
          initialState roomsAB).state)) :=
  ⟨by decide,
    c7_amended_all_or_nothing rsOpen 0 2 (registerMsg "streamer" "AB" "T")
      "AB" initialState roomsAB (by decide) (by decide)⟩

/-! ### C2 -/

/-- C2 is violated by the code (code bug): after connection A (socket
10) registers player `Alice` in room `AB` and connection B (socket 20)
later registers under the same name, running cleanup for A (its `leave`)
deletes the `Alice` entry — which at that point holds B's socket 20 —
and sends `player-left` to the streamer, because `cleanupConnection`
removes the player-map entry by name without comparing the stored
connection.  The claim requires B's entry to stay and no notification. -/
theorem c2_cleanup_evicts_by_name :
    mapGet c2r3.rooms (JValue.str "AB") =
      some ⟨some 9, JValue.str "S",
        [(JValue.str "Alice", ⟨JValue.str "Alice", 20⟩)]⟩ ∧
    c2r4.rooms = [(JValue.str "AB", ⟨some 9, JValue.str "S", []⟩)] ∧
    c2r4.events = [Event.send 9 (OutMsg.playerLeft (JValue.str "Alice"))] := by
  refine ⟨by decide, by decide, by decide⟩

/-! ### C3 -/

/-- C3 is violated by the code (code bug): the syntactically valid JSON
frame `{"type":"register"}` makes `handleMessage` throw (reading
`parsed.code.toUpperCase()` with `code` absent), and because the
`ws.on('message')` catch block merely calls `handleMessage` again — and
`state.role` is still unset, so the same line throws again — the
exception escapes the message handler: the frame is fatal, not handled
within the connection.  The registry itself is left untouched. -/
theorem c3_register_without_code_fatal :
    (handleMessage rsOpen 0 0
        (some (jobj [("type", JValue.str "register")]))
        initialState []).threw = true ∧
    (onMessage rsOpen 0 0 (some (jobj [("type", JValue.str "register")]))
        initialState []).threw = true ∧
    (onMessage rsOpen 0 0 (some (jobj [("type", JValue.str "register")]))
        initialState []).rooms = [] ∧
    (onMessage rsOpen 0 0 (some (jobj [("type", JValue.str "register")]))
        initialState []).events = [] := by
  refine ⟨by decide, by decide, by decide, by decide⟩

end Signaling
